import Mathlib

/-!
Verification development for the Call_Orit bot (src/main.py).

The embedding models the persistent user table as an association list from
user id to a row holding the remaining uses counter and the last-active
timestamp, mirroring the sqlite table created by init_db.  The per-user
dialog state of the aiogram FSM is a three-valued enum.  External
collaborators (file download from the transport, the OpenAI inference call,
message delivery) are modelled by boolean outcome flags; a failing call
raises, which the handlers translate into the branch structure written out
below.  Replies sent to the invoking user are collected as the handler
output; fire-and-forget sends to other chats are collected in a separate
dispatch list.
-/

/-- FREE_USES_LIMIT from main.py line 62: default quota for new users. -/
def FREE_USES_LIMIT : Int := 10

/-- ADMIN_ID default from main.py line 32. -/
def ADMIN_ID : Int := 1082828397

/-- One row of the users table: uses_left INTEGER, last_active TEXT
(modelled as an abstract timestamp). -/
structure UserRow where
  uses_left : Int
  last_active : Nat
  deriving DecidableEq

/-- The users table, keyed by user_id. -/
abbrev DB := List (Int × UserRow)

/-- SELECT ... WHERE user_id = uid (first matching row). -/
def DB.lookup : DB → Int → Option UserRow
  | [], _ => none
  | kr :: rest, uid => if kr.1 = uid then some kr.2 else DB.lookup rest uid

/-- Number of rows whose key is uid. -/
def count_key (db : DB) (uid : Int) : Nat :=
  (db.filter (fun kr => kr.1 == uid)).length

/-- ensure_user (main.py 114-130): INSERT OR ON CONFLICT UPDATE last_active.
A missing row is inserted with the column default uses_left = FREE_USES_LIMIT
and last_active = now; an existing row only has last_active refreshed. -/
def ensure_user : DB → Int → Nat → DB
  | [], uid, now => [(uid, { uses_left := FREE_USES_LIMIT, last_active := now })]
  | kr :: rest, uid, now =>
    if kr.1 = uid then (kr.1, { kr.2 with last_active := now }) :: rest
    else kr :: ensure_user rest uid now

/-- The SELECT in handle_photo lines 381-383: row[0] if row else 0. -/
def get_uses_left (db : DB) (uid : Int) : Int :=
  match DB.lookup db uid with
  | some r => r.uses_left
  | none => 0

/-- UPDATE users SET uses_left = uses_left - 1 WHERE user_id = uid
(main.py 434). -/
def decrement_use (db : DB) (uid : Int) : DB :=
  db.map (fun kr => if kr.1 = uid then (kr.1, { kr.2 with uses_left := kr.2.uses_left - 1 }) else kr)

/-- UPDATE users SET uses_left = 999 WHERE user_id = uid (main.py 334),
paired with cursor.rowcount > 0. -/
def activate_subscription (db : DB) (uid : Int) : DB × Bool :=
  (db.map (fun kr => if kr.1 = uid then (kr.1, { kr.2 with uses_left := 999 }) else kr),
   db.any (fun kr => kr.1 == uid))

/-- SUM(uses_left): NULL (none) over an empty table, as sqlite computes it. -/
def sum_uses (db : DB) : Option Int :=
  match db with
  | [] => none
  | _ => some (db.foldl (fun a kr => a + kr.2.uses_left) 0)

/-- get_user_stats (main.py 132-142): (COUNT, SUM(uses_left),
COUNT WHERE uses_left < FREE_USES_LIMIT); on a sqlite error the except
branch returns the literal triple (0, 0, 0). -/
def get_user_stats (db : DB) (dbError : Bool) : Nat × Option Int × Nat :=
  if dbError then (0, some 0, 0)
  else (db.length, sum_uses db,
        (db.filter (fun kr => decide (kr.2.uses_left < FREE_USES_LIMIT))).length)

/-- get_generation_count (main.py 144-151): COUNT WHERE uses_left <
FREE_USES_LIMIT, or 0 on a sqlite error. -/
def get_generation_count (db : DB) (dbError : Bool) : Nat :=
  if dbError then 0
  else (db.filter (fun kr => decide (kr.2.uses_left < FREE_USES_LIMIT))).length

/-- Per-user dialog state of the aiogram FSM (GenStates, main.py 97-100);
no state set corresponds to idle. -/
inductive DialogState
  | idle
  | awaitPhoto
  | awaitBroadcast
  deriving DecidableEq

/-- One constructor per distinct user-facing message text in main.py. -/
inductive Reply
  | deniedShort
  | deniedLong
  | welcome
  | limitExhausted
  | processing
  | analysisResult
  | analysisError
  | broadcastPrompt
  | broadcastEmptyWarn
  | broadcastSummary (success failed : Nat)
  | broadcastDbError
  | statsMsg (total paid active : Nat)
  | adminPanel (total : Nat) (uses : Int) (paid : Nat)
  | usersEmpty
  | userList (rows : List (Int × Int × Nat))
  | usersDbError
  | findUsage
  | findBadId
  | findFound (uid uses : Int)
  | findNotFound
  | findDbError
  | activateUsage
  | activateBadId
  | activated (uid : Int)
  | activateNotFound (uid : Int)
  | activateDbError
  deriving DecidableEq

/-- Observable outcome of one handler invocation: the table afterwards, the
dialog state afterwards, the replies sent to the invoking chat, and the ids
of other chats a send was attempted to. -/
structure CmdResult where
  db : DB
  state : DialogState
  replies : List Reply
  dispatches : List Int
  deriving DecidableEq

/-- Outcomes of the fallible external calls inside handle_photo: the file
download (lines 395-399), the OpenAI call (402-414), delivery of the result
message (418), and the channel notification (425-431) whose failure is
caught and only logged. -/
structure PhotoOutcome where
  acquireOk : Bool
  inferOk : Bool
  deliverOk : Bool
  notifyOk : Bool
  deriving DecidableEq

/-- All external calls succeed. -/
def fullSuccess : PhotoOutcome :=
  { acquireOk := true, inferOk := true, deliverOk := true, notifyOk := true }

/-- handle_photo (main.py 375-447), fired for a photo in state await_photo:
ensure_user, read uses_left (0 when the row is missing), deny at <= 0;
otherwise download, call the inference service, deliver the result,
best-effort notify the channel, and only then decrement.  Any exception in
the try block yields the generic failure reply and no decrement; the
finally block always clears the state. -/
def handle_photo (db : DB) (uid : Int) (now : Nat) (channelSet : Bool)
    (oc : PhotoOutcome) : CmdResult :=
  let db1 := ensure_user db uid now
  let uses_left := get_uses_left db1 uid
  if uses_left ≤ 0 then
    { db := db1, state := .idle, replies := [.limitExhausted], dispatches := [] }
  else if oc.acquireOk && oc.inferOk then
    if oc.deliverOk then
      { db := decrement_use db1 uid, state := .idle,
        replies := [.processing, .analysisResult],
        dispatches := if channelSet then [0] else [] }
    else
      { db := db1, state := .idle,
        replies := [.processing, .analysisError], dispatches := [] }
  else
    { db := db1, state := .idle,
      replies := [.processing, .analysisError], dispatches := [] }

/-- Iterate handle_photo with every external call succeeding (N successful
gated actions in a row by the same user). -/
def run_successes (uid : Int) (now : Nat) (ch : Bool) : Nat → DB → DB
  | 0, db => db
  | n + 1, db => run_successes uid now ch n (handle_photo db uid now ch fullSuccess).db

/-- The falsiness test "if not text" on message.text (None for a non-text
message, or the empty string). -/
def text_empty : Option String → Bool
  | none => true
  | some s => s.isEmpty

/-- The send loop of process_broadcast (main.py 233-240): walk the snapshot,
each send independently fallible, accumulating success and failure counts. -/
def bcast_loop (sendFail : Int → Bool) : List Int → Nat → Nat → Nat × Nat
  | [], s, f => (s, f)
  | i :: rest, s, f =>
    if sendFail i then bcast_loop sendFail rest s (f + 1)
    else bcast_loop sendFail rest (s + 1) f

/-- process_broadcast (main.py 220-254), fired for a message in state
await_broadcast: empty text is rejected; otherwise SELECT user_id snapshots
the targets once, the loop counts per-recipient outcomes, the channel is
best-effort notified (failure caught, observables unaffected), and the
summary is reported.  A sqlite error on the listing yields the generic
failure reply.  Every path clears the state. -/
def process_broadcast (db : DB) (text : Option String) (listOk : Bool)
    (sendFail : Int → Bool) (channelNotifyOk : Bool) : CmdResult :=
  if text_empty text then
    { db := db, state := .idle, replies := [.broadcastEmptyWarn], dispatches := [] }
  else if listOk then
    let targets := db.map Prod.fst
    let counts := bcast_loop sendFail targets 0 0
    { db := db, state := .idle,
      replies := [.broadcastSummary counts.1 counts.2], dispatches := targets }
  else
    { db := db, state := .idle, replies := [.broadcastDbError], dispatches := [] }

/-- Insertion into a list sorted by last_active descending. -/
def insert_desc (kr : Int × UserRow) : List (Int × UserRow) → List (Int × UserRow)
  | [] => [kr]
  | x :: xs =>
    if x.2.last_active ≤ kr.2.last_active then kr :: x :: xs
    else x :: insert_desc kr xs

/-- ORDER BY last_active DESC as an insertion sort. -/
def sort_desc : List (Int × UserRow) → List (Int × UserRow)
  | [] => []
  | x :: xs => insert_desc x (sort_desc xs)

/-- SELECT user_id, uses_left, last_active ORDER BY last_active DESC LIMIT n
(main.py 195). -/
def list_recent (db : DB) (n : Nat) : List (Int × Int × Nat) :=
  ((sort_desc db).take n).map (fun kr => (kr.1, kr.2.uses_left, kr.2.last_active))

/-- cmd_start (main.py 283-289): ensure_user (whose sqlite errors are caught
inside ensure_user itself and only logged), welcome reply, state cleared. -/
def cmd_start (db : DB) (uid : Int) (now : Nat) (dbError : Bool) : CmdResult :=
  let db1 := if dbError then db else ensure_user db uid now
  { db := db1, state := .idle, replies := [.welcome], dispatches := [] }

/-- cmd_stats (main.py 171-186): admin check first, then the two stat
helpers, each of which swallows its own sqlite error. -/
def cmd_stats (db : DB) (fromUser : Int) (st : DialogState) (dbError : Bool) :
    CmdResult :=
  if fromUser ≠ ADMIN_ID then
    { db := db, state := st, replies := [.deniedShort], dispatches := [] }
  else
    let s := get_user_stats db dbError
    let active := get_generation_count db dbError
    { db := db, state := st, replies := [.statsMsg s.1 s.2.2 active], dispatches := [] }

/-- cmd_list_users (main.py 188-208): admin check, then the ordered listing;
a sqlite error here does surface a failure reply. -/
def cmd_list_users (db : DB) (fromUser : Int) (st : DialogState) (dbError : Bool) :
    CmdResult :=
  if fromUser ≠ ADMIN_ID then
    { db := db, state := st, replies := [.deniedShort], dispatches := [] }
  else if dbError then
    { db := db, state := st, replies := [.usersDbError], dispatches := [] }
  else
    let rows := list_recent db 20
    if rows.isEmpty then
      { db := db, state := st, replies := [.usersEmpty], dispatches := [] }
    else
      { db := db, state := st, replies := [.userList rows], dispatches := [] }

/-- cmd_broadcast (main.py 210-218): admin check, then prompt and enter
await_broadcast. -/
def cmd_broadcast (db : DB) (fromUser : Int) (st : DialogState) : CmdResult :=
  if fromUser ≠ ADMIN_ID then
    { db := db, state := st, replies := [.deniedLong], dispatches := [] }
  else
    { db := db, state := .awaitBroadcast, replies := [.broadcastPrompt], dispatches := [] }

/-- Parsed command argument: none is a wrong argument count, some none a
non-numeric id (ValueError), some (some uid) a parsed id. -/
abbrev CmdArg := Option (Option Int)

/-- cmd_find_user (main.py 256-281): admin check, arity check, int parse,
then the SELECT; a sqlite error surfaces a failure reply. -/
def cmd_find_user (db : DB) (fromUser : Int) (st : DialogState)
    (arg : CmdArg) (dbError : Bool) : CmdResult :=
  if fromUser ≠ ADMIN_ID then
    { db := db, state := st, replies := [.deniedLong], dispatches := [] }
  else
    match arg with
    | none => { db := db, state := st, replies := [.findUsage], dispatches := [] }
    | some none => { db := db, state := st, replies := [.findBadId], dispatches := [] }
    | some (some target) =>
      if dbError then
        { db := db, state := st, replies := [.findDbError], dispatches := [] }
      else
        match DB.lookup db target with
        | some r =>
          { db := db, state := st, replies := [.findFound target r.uses_left], dispatches := [] }
        | none =>
          { db := db, state := st, replies := [.findNotFound], dispatches := [] }

/-- cmd_activate_user (main.py 321-351): admin check, arity check, int
parse, UPDATE, then rowcount branch; on success the affected user is
best-effort notified (the dispatch is attempted; its failure is caught). -/
def cmd_activate_user (db : DB) (fromUser : Int) (st : DialogState)
    (arg : CmdArg) (dbError : Bool) : CmdResult :=
  if fromUser ≠ ADMIN_ID then
    { db := db, state := st, replies := [.deniedShort], dispatches := [] }
  else
    match arg with
    | none => { db := db, state := st, replies := [.activateUsage], dispatches := [] }
    | some none => { db := db, state := st, replies := [.activateBadId], dispatches := [] }
    | some (some target) =>
      if dbError then
        { db := db, state := st, replies := [.activateDbError], dispatches := [] }
      else
        let res := activate_subscription db target
        if res.2 then
          { db := res.1, state := st, replies := [.activated target], dispatches := [target] }
        else
          { db := res.1, state := st, replies := [.activateNotFound target], dispatches := [] }

/-- cmd_admin (main.py 304-319): admin check, then the stats panel, showing
the SUM with a fallback of 0 when it is NULL. -/
def cmd_admin (db : DB) (fromUser : Int) (st : DialogState) (dbError : Bool) :
    CmdResult :=
  if fromUser ≠ ADMIN_ID then
    { db := db, state := st, replies := [.deniedLong], dispatches := [] }
  else
    let s := get_user_stats db dbError
    { db := db, state := st, replies := [.adminPanel s.1 (s.2.1.getD 0) s.2.2],
      dispatches := [] }

/-! ## Store lemmas -/

theorem lookup_ensure_self (db : DB) (uid : Int) (now : Nat) :
    DB.lookup (ensure_user db uid now) uid
      = some { uses_left := (DB.lookup db uid).elim FREE_USES_LIMIT UserRow.uses_left,
               last_active := now } := by
  induction db with
  | nil => simp [ensure_user, DB.lookup]
  | cons kr rest ih =>
    by_cases h : kr.1 = uid
    · simp [ensure_user, DB.lookup, h]
    · simp [ensure_user, DB.lookup, h, ih]

theorem lookup_ensure_ne (db : DB) (uid v : Int) (now : Nat) (h : v ≠ uid) :
    DB.lookup (ensure_user db uid now) v = DB.lookup db v := by
  have huv : ¬ uid = v := fun hh => h hh.symm
  induction db with
  | nil => simp [ensure_user, DB.lookup, huv]
  | cons kr rest ih =>
    by_cases hk : kr.1 = uid
    · have h1 : ¬ kr.1 = v := by rw [hk]; exact huv
      simp [ensure_user, DB.lookup, hk, h1, huv]
    · by_cases h1 : kr.1 = v
      · have hvu : ¬ v = uid := by rw [← h1]; exact hk
        simp [ensure_user, DB.lookup, hk, h1, hvu]
      · simp [ensure_user, DB.lookup, hk, h1, ih]

theorem get_uses_left_ensure_present (db : DB) (uid : Int) (now : Nat) (r : UserRow)
    (h : DB.lookup db uid = some r) :
    get_uses_left (ensure_user db uid now) uid = get_uses_left db uid := by
  simp [get_uses_left, lookup_ensure_self, h]

theorem get_uses_left_ensure_absent (db : DB) (uid : Int) (now : Nat)
    (h : DB.lookup db uid = none) :
    get_uses_left (ensure_user db uid now) uid = FREE_USES_LIMIT := by
  simp [get_uses_left, lookup_ensure_self, h]

theorem get_uses_left_absent (db : DB) (uid : Int) (h : DB.lookup db uid = none) :
    get_uses_left db uid = 0 := by
  simp [get_uses_left, h]

theorem lookup_map_update (db : DB) (uid v : Int) (f : UserRow → UserRow) :
    DB.lookup (db.map (fun kr => if kr.1 = uid then (kr.1, f kr.2) else kr)) v
      = if v = uid then (DB.lookup db uid).map f else DB.lookup db v := by
  induction db with
  | nil => simp [DB.lookup]
  | cons kr rest ih =>
    by_cases hk : kr.1 = uid
    · by_cases hv : v = uid
      · have h1 : kr.1 = v := by rw [hk, hv]
        simp [DB.lookup, hk, hv, h1]
      · have h1 : ¬ kr.1 = v := by rw [hk]; exact fun hh => hv hh.symm
        have h2 : ¬ uid = v := fun hh => hv hh.symm
        simp [DB.lookup, hk, hv, h1, h2, ih]
    · by_cases h1 : kr.1 = v
      · have hv : ¬ v = uid := by rw [← h1]; exact hk
        simp [DB.lookup, hk, h1, hv]
      · simp [DB.lookup, hk, h1, ih]

theorem lookup_decrement (db : DB) (uid v : Int) :
    DB.lookup (decrement_use db uid) v
      = if v = uid then
          (DB.lookup db uid).map (fun r => { r with uses_left := r.uses_left - 1 })
        else DB.lookup db v :=
  lookup_map_update db uid v (fun r => { r with uses_left := r.uses_left - 1 })

theorem lookup_activate (db : DB) (uid v : Int) :
    DB.lookup (activate_subscription db uid).1 v
      = if v = uid then (DB.lookup db uid).map (fun r => { r with uses_left := 999 })
        else DB.lookup db v :=
  lookup_map_update db uid v (fun r => { r with uses_left := 999 })

theorem activate_affected (db : DB) (uid : Int) :
    (activate_subscription db uid).2 = true ↔ (DB.lookup db uid).isSome := by
  induction db with
  | nil => simp [activate_subscription, DB.lookup]
  | cons kr rest ih =>
    by_cases hk : kr.1 = uid
    · simp [activate_subscription, DB.lookup, hk]
    · simp [activate_subscription, DB.lookup, hk] at ih ⊢
      exact ih

theorem get_uses_left_decrement_present (db : DB) (uid : Int) (r : UserRow)
    (h : DB.lookup db uid = some r) :
    get_uses_left (decrement_use db uid) uid = get_uses_left db uid - 1 := by
  simp [get_uses_left, lookup_decrement, h]

theorem get_uses_left_activate_present (db : DB) (uid : Int) (r : UserRow)
    (h : DB.lookup db uid = some r) :
    get_uses_left (activate_subscription db uid).1 uid = 999 := by
  simp [get_uses_left, lookup_activate, h]

theorem lookup_cons (kr : Int × UserRow) (rest : DB) (uid : Int) :
    DB.lookup (kr :: rest) uid
      = if kr.1 = uid then some kr.2 else DB.lookup rest uid := rfl

theorem ensure_cons (kr : Int × UserRow) (rest : DB) (uid : Int) (now : Nat) :
    ensure_user (kr :: rest) uid now
      = if kr.1 = uid then (kr.1, { kr.2 with last_active := now }) :: rest
        else kr :: ensure_user rest uid now := rfl

theorem count_key_cons (kr : Int × UserRow) (rest : DB) (uid : Int) :
    count_key (kr :: rest) uid
      = (if kr.1 = uid then 1 else 0) + count_key rest uid := by
  simp only [count_key, List.filter_cons]
  by_cases hk : kr.1 = uid
  · simp [hk, Nat.add_comm]
  · simp [hk]

theorem count_key_absent (db : DB) (uid : Int) (h : DB.lookup db uid = none) :
    count_key db uid = 0 := by
  induction db with
  | nil => rfl
  | cons kr rest ih =>
    rw [lookup_cons] at h
    by_cases hk : kr.1 = uid
    · rw [if_pos hk] at h; exact absurd h (by simp)
    · rw [if_neg hk] at h
      rw [count_key_cons, if_neg hk, ih h]

theorem count_key_ensure_absent (db : DB) (uid : Int) (now : Nat)
    (h : DB.lookup db uid = none) :
    count_key (ensure_user db uid now) uid = 1 := by
  induction db with
  | nil => simp [ensure_user, count_key, List.filter]
  | cons kr rest ih =>
    by_cases hk : kr.1 = uid
    · simp [DB.lookup, hk] at h
    · simp [DB.lookup, hk] at h
      simp [ensure_user, count_key, List.filter, hk] at ih ⊢
      exact ih h

theorem count_key_ensure_present (db : DB) (uid : Int) (now : Nat)
    (h : (DB.lookup db uid).isSome) :
    count_key (ensure_user db uid now) uid = count_key db uid := by
  induction db with
  | nil => simp [DB.lookup] at h
  | cons kr rest ih =>
    rw [lookup_cons] at h
    by_cases hk : kr.1 = uid
    · rw [ensure_cons, if_pos hk, count_key_cons, count_key_cons]
    · rw [if_neg hk] at h
      rw [ensure_cons, if_neg hk, count_key_cons, count_key_cons, ih h]

theorem length_ensure_present (db : DB) (uid : Int) (now : Nat)
    (h : (DB.lookup db uid).isSome) :
    (ensure_user db uid now).length = db.length := by
  induction db with
  | nil => simp [DB.lookup] at h
  | cons kr rest ih =>
    by_cases hk : kr.1 = uid
    · simp [ensure_user, hk]
    · simp [DB.lookup, hk] at h
      simp [ensure_user, hk, ih h]

/-- One fully successful gated action on a user whose row exists and whose
quota is positive: the counter drops by exactly one and the row persists. -/
theorem handle_photo_success_step (db : DB) (uid : Int) (now : Nat) (ch : Bool)
    (r : UserRow) (hrow : DB.lookup db uid = some r) (hpos : 0 < r.uses_left) :
    DB.lookup (handle_photo db uid now ch fullSuccess).db uid
        = some { uses_left := r.uses_left - 1, last_active := now }
      ∧ get_uses_left (handle_photo db uid now ch fullSuccess).db uid
        = get_uses_left db uid - 1 := by
  have hget : get_uses_left (ensure_user db uid now) uid = r.uses_left := by
    simp [get_uses_left, lookup_ensure_self, hrow]
  have hnot : ¬ get_uses_left (ensure_user db uid now) uid ≤ 0 := by
    rw [hget]; omega
  have hlook : DB.lookup (decrement_use (ensure_user db uid now) uid) uid
      = some { uses_left := r.uses_left - 1, last_active := now } := by
    simp [lookup_decrement, lookup_ensure_self, hrow]
  constructor
  · simp only [handle_photo, fullSuccess, if_neg hnot, Bool.and_self, if_pos]
    exact hlook
  · simp only [handle_photo, fullSuccess, if_neg hnot, Bool.and_self, if_pos]
    simp [get_uses_left, hlook, hrow]

/-- N fully successful gated actions in a row decrement the counter by N. -/
theorem run_successes_uses (uid : Int) (now : Nat) (ch : Bool) :
    ∀ (n : Nat) (db : DB) (r : UserRow), DB.lookup db uid = some r →
      (n : Int) ≤ r.uses_left →
      DB.lookup (run_successes uid now ch n db) uid
        = some { uses_left := r.uses_left - n,
                 last_active := if n = 0 then r.last_active else now } := by
  intro n
  induction n with
  | zero => intro db r hrow _; simpa [run_successes] using hrow
  | succ m ih =>
    intro db r hrow hle
    have hpos : 0 < r.uses_left := by omega
    have hstep := (handle_photo_success_step db uid now ch r hrow hpos).1
    have hrec := ih (handle_photo db uid now ch fullSuccess).db
      { uses_left := r.uses_left - 1, last_active := now } hstep
      (by show (m : Int) ≤ r.uses_left - 1; omega)
    rw [run_successes, hrec]
    simp only [Option.some.injEq, UserRow.mk.injEq]
    constructor
    · show r.uses_left - 1 - (m : Int) = r.uses_left - ((m : Nat) + 1 : Nat)
      push_cast; ring
    · show (if m = 0 then now else now) = if m + 1 = 0 then r.last_active else now
      simp

/-- The broadcast send loop counts exactly the failing and non-failing
targets on top of its accumulators. -/
theorem bcast_loop_counts (sendFail : Int → Bool) :
    ∀ (l : List Int) (s f : Nat),
      bcast_loop sendFail l s f
        = (s + (l.filter (fun i => ! sendFail i)).length,
           f + (l.filter sendFail).length) := by
  intro l
  induction l with
  | nil => intro s f; simp [bcast_loop]
  | cons i rest ih =>
    intro s f
    by_cases hi : sendFail i = true
    · simp [bcast_loop, hi, List.filter, ih]
      omega
    · simp at hi
      simp [bcast_loop, hi, List.filter, ih]
      omega

/-- A denied photo event reduces to the upgrade reply with the ensured
table. -/
theorem handle_photo_denied (db : DB) (uid : Int) (now : Nat) (ch : Bool)
    (oc : PhotoOutcome)
    (hden : get_uses_left (ensure_user db uid now) uid ≤ 0) :
    handle_photo db uid now ch oc
      = { db := ensure_user db uid now, state := .idle,
          replies := [.limitExhausted], dispatches := [] } := by
  simp [handle_photo, hden]

/-- Lengths of the two filter halves of a list sum to its length. -/
theorem filter_not_length (p : Int → Bool) (l : List Int) :
    (l.filter (fun i => ! p i)).length + (l.filter p).length = l.length := by
  induction l with
  | nil => rfl
  | cons i rest ih =>
    by_cases h : p i = true <;> simp [List.filter_cons, h] <;> omega

/-! ## Claim theorems -/

/-- Claim C3: every event handled from AwaitingPhoto (handle_photo) or
AwaitingBroadcastText (process_broadcast) leaves the dialog state Idle on
every outcome: analysis success, analysis failure, quota denial, empty
broadcast text, broadcast delivery failures, and failure of the
user-listing query. -/
theorem C3_state_clear_invariant (db : DB) (uid : Int) (now : Nat) (ch : Bool)
    (oc : PhotoOutcome) (text : Option String) (listOk : Bool)
    (sendFail : Int → Bool) (cn : Bool) :
    (handle_photo db uid now ch oc).state = .idle
    ∧ (process_broadcast db text listOk sendFail cn).state = .idle := by
  constructor
  · obtain ⟨a, i, d, no⟩ := oc
    by_cases h : get_uses_left (ensure_user db uid now) uid ≤ 0 <;>
      cases a <;> cases i <;> cases d <;> simp [handle_photo, h]
  · by_cases h : text_empty text = true <;> cases listOk <;>
      simp [process_broadcast, h]

/-- Claim C4: a broadcast over the snapshot of size K taken once at the
start, with F failing deliveries, reports success = K - F and failure = F
with total K; every target is attempted (no per-recipient failure aborts
the run), and the report depends only on the snapshot of ids. -/
theorem C4_broadcast_accounting (db : DB) (text : Option String)
    (sendFail : Int → Bool) (cn : Bool)
    (hne : text_empty text = false) :
    (process_broadcast db text true sendFail cn).replies
      = [.broadcastSummary
          (db.length - ((db.map Prod.fst).filter sendFail).length)
          (((db.map Prod.fst).filter sendFail).length)]
    ∧ (db.length - ((db.map Prod.fst).filter sendFail).length)
        + ((db.map Prod.fst).filter sendFail).length = db.length
    ∧ (process_broadcast db text true sendFail cn).dispatches = db.map Prod.fst
    ∧ ∀ db2 : DB, db2.map Prod.fst = db.map Prod.fst →
        (process_broadcast db2 text true sendFail cn).replies
          = (process_broadcast db text true sendFail cn).replies := by
  have hl := bcast_loop_counts sendFail (db.map Prod.fst) 0 0
  have hsum := filter_not_length sendFail (db.map Prod.fst)
  have hK : (db.map Prod.fst).length = db.length := List.length_map _ _
  have hsucc : ((db.map Prod.fst).filter (fun i => ! sendFail i)).length
      = db.length - ((db.map Prod.fst).filter sendFail).length := by omega
  refine ⟨?_, by omega, ?_, ?_⟩
  · simp [process_broadcast, hne, hl, hsucc]
  · simp [process_broadcast, hne]
  · intro db2 h2
    simp [process_broadcast, hne, h2]

/-- Witness for C4 at a three-user table with one failing delivery. -/
theorem C4_witness :
    text_empty (some "hi") = false
    ∧ (process_broadcast [(1, ⟨5, 0⟩), (2, ⟨9, 1⟩), (3, ⟨10, 2⟩)] (some "hi") true
        (fun i => i == 2) true).replies = [Reply.broadcastSummary 2 1] := by
  constructor
  · decide
  · have h := (C4_broadcast_accounting [(1, ⟨5, 0⟩), (2, ⟨9, 1⟩), (3, ⟨10, 2⟩)]
      (some "hi") (fun i => i == 2) true (by decide)).1
    rw [h]; decide

/-- Claim C8: EnsureUser is an idempotent upsert: two calls on a new id
leave exactly one row with usesLeft at the free limit, every call refreshes
lastActive, and a call after an external decrement leaves the decremented
value in place. -/
theorem C8_ensure_idempotent (db : DB) (uid : Int) (t1 t2 t3 t4 : Nat)
    (h : DB.lookup db uid = none) :
    count_key (ensure_user (ensure_user db uid t1) uid t2) uid = 1
    ∧ get_uses_left (ensure_user (ensure_user db uid t1) uid t2) uid = FREE_USES_LIMIT
    ∧ (∀ d : DB, (DB.lookup (ensure_user d uid t4) uid).map UserRow.last_active = some t4)
    ∧ get_uses_left
        (ensure_user (decrement_use (ensure_user (ensure_user db uid t1) uid t2) uid) uid t3)
        uid = FREE_USES_LIMIT - 1 := by
  have h1 : DB.lookup (ensure_user db uid t1) uid
      = some { uses_left := FREE_USES_LIMIT, last_active := t1 } := by
    rw [lookup_ensure_self, h]; rfl
  have h2 : DB.lookup (ensure_user (ensure_user db uid t1) uid t2) uid
      = some { uses_left := FREE_USES_LIMIT, last_active := t2 } := by
    rw [lookup_ensure_self, h1]; rfl
  have h3 : DB.lookup (decrement_use (ensure_user (ensure_user db uid t1) uid t2) uid) uid
      = some { uses_left := FREE_USES_LIMIT - 1, last_active := t2 } := by
    rw [lookup_decrement, if_pos rfl, h2]; rfl
  refine ⟨?_, ?_, ?_, ?_⟩
  · rw [count_key_ensure_present _ _ _ (by rw [h1]; rfl),
      count_key_ensure_absent db uid t1 h]
  · simp [get_uses_left, h2]
  · intro d
    simp [lookup_ensure_self]
  · rw [get_uses_left_ensure_present _ _ _ _ h3]
    simp [get_uses_left, h3]

/-- Witness for C8 on a fresh table. -/
theorem C8_witness :
    DB.lookup ([] : DB) 7 = none
    ∧ count_key (ensure_user (ensure_user [] 7 1) 7 2) 7 = 1
    ∧ get_uses_left (ensure_user (ensure_user [] 7 1) 7 2) 7 = FREE_USES_LIMIT
    ∧ get_uses_left
        (ensure_user (decrement_use (ensure_user (ensure_user [] 7 1) 7 2) 7) 7 3) 7
        = FREE_USES_LIMIT - 1 := by
  have hthm := C8_ensure_idempotent [] 7 1 2 3 4 rfl
  exact ⟨rfl, hthm.1, hthm.2.1, hthm.2.2.2⟩

/-- Claim C9: each privileged command (/stats, /users, /find, /activate,
/broadcast, /admin) invoked by a non-administrator checks the admin id
first and produces only its fixed denial reply: the table, the dialog
state, and the dispatch list are untouched. -/
theorem C9_admin_gate (db : DB) (uid : Int) (st : DialogState)
    (dbError : Bool) (arg : CmdArg) (h : uid ≠ ADMIN_ID) :
    cmd_stats db uid st dbError
      = { db := db, state := st, replies := [.deniedShort], dispatches := [] }
    ∧ cmd_list_users db uid st dbError
      = { db := db, state := st, replies := [.deniedShort], dispatches := [] }
    ∧ cmd_find_user db uid st arg dbError
      = { db := db, state := st, replies := [.deniedLong], dispatches := [] }
    ∧ cmd_activate_user db uid st arg dbError
      = { db := db, state := st, replies := [.deniedShort], dispatches := [] }
    ∧ cmd_broadcast db uid st
      = { db := db, state := st, replies := [.deniedLong], dispatches := [] }
    ∧ cmd_admin db uid st dbError
      = { db := db, state := st, replies := [.deniedLong], dispatches := [] } := by
  refine ⟨?_, ?_, ?_, ?_, ?_, ?_⟩ <;>
    simp [cmd_stats, cmd_list_users, cmd_find_user, cmd_activate_user,
      cmd_broadcast, cmd_admin, h]

/-- Witness for C9 with invoker id 0. -/
theorem C9_witness :
    (0 : Int) ≠ ADMIN_ID
    ∧ cmd_stats [] 0 .idle false
        = { db := [], state := .idle, replies := [.deniedShort], dispatches := [] }
    ∧ cmd_broadcast [] 0 .idle
        = { db := [], state := .idle, replies := [.deniedLong], dispatches := [] } := by
  have h := C9_admin_gate [] 0 .idle false none (by decide)
  exact ⟨by decide, h.1, h.2.2.2.2.1⟩
/-- An allowed photo event with successful download, inference and delivery
reduces to the decrement branch. -/
theorem handle_photo_allowed_success (db : DB) (uid : Int) (now : Nat)
    (ch no : Bool)
    (hpos : ¬ get_uses_left (ensure_user db uid now) uid ≤ 0) :
    handle_photo db uid now ch ⟨true, true, true, no⟩
      = { db := decrement_use (ensure_user db uid now) uid, state := .idle,
          replies := [.processing, .analysisResult],
          dispatches := if ch then [0] else [] } := by
  simp only [handle_photo]
  rw [if_neg hpos]
  simp

/-- An allowed photo event where the download, the inference or the delivery
fails reduces to the generic-failure branch with no decrement. -/
theorem handle_photo_allowed_failure (db : DB) (uid : Int) (now : Nat)
    (ch : Bool) (oc : PhotoOutcome)
    (hpos : ¬ get_uses_left (ensure_user db uid now) uid ≤ 0)
    (hf : (oc.acquireOk && oc.inferOk && oc.deliverOk) = false) :
    handle_photo db uid now ch oc
      = { db := ensure_user db uid now, state := .idle,
          replies := [.processing, .analysisError], dispatches := [] } := by
  obtain ⟨a, i, d, no⟩ := oc
  simp only [handle_photo]
  rw [if_neg hpos]
  cases a <;> cases i <;> cases d <;> simp_all

/-- Claim C1: when the gate passes (usesLeft > 0), usesLeft is decremented
by exactly 1 only when the inference call and the delivery of its result
both succeed; on a failed inference or failed delivery the table is
untouched and the user gets the generic failure reply; and after N
successful gated actions from the fresh free limit, usesLeft equals
limit - N. -/
theorem C1_quota_decrement_only_on_success (db : DB) (uid : Int) (now : Nat)
    (ch : Bool) (oc : PhotoOutcome) (n : Nat) :
    (0 < get_uses_left (ensure_user db uid now) uid →
      ((oc.acquireOk && oc.inferOk && oc.deliverOk) = true →
        get_uses_left (handle_photo db uid now ch oc).db uid
          = get_uses_left (ensure_user db uid now) uid - 1)
      ∧ ((oc.acquireOk && oc.inferOk && oc.deliverOk) = false →
        (handle_photo db uid now ch oc).db = ensure_user db uid now
        ∧ (handle_photo db uid now ch oc).replies = [.processing, .analysisError]))
    ∧ (DB.lookup db uid = none → (n : Int) ≤ FREE_USES_LIMIT →
        get_uses_left (run_successes uid now ch n (ensure_user db uid now)) uid
          = FREE_USES_LIMIT - n) := by
  constructor
  · intro hpos
    have hnot : ¬ get_uses_left (ensure_user db uid now) uid ≤ 0 := by omega
    have hdec : get_uses_left (decrement_use (ensure_user db uid now) uid) uid
        = get_uses_left (ensure_user db uid now) uid - 1 :=
      get_uses_left_decrement_present _ uid _ (lookup_ensure_self db uid now)
    constructor
    · intro hall
      simp only [Bool.and_eq_true] at hall
      obtain ⟨⟨ha, hi⟩, hd⟩ := hall
      obtain ⟨a, i, d, no⟩ := oc
      simp only at ha hi hd
      subst ha; subst hi; subst hd
      rw [handle_photo_allowed_success db uid now ch no hnot]
      exact hdec
    · intro hfail
      rw [handle_photo_allowed_failure db uid now ch oc hnot hfail]
      exact ⟨rfl, rfl⟩
  · intro habs hle
    have hlook : DB.lookup (ensure_user db uid now) uid
        = some { uses_left := FREE_USES_LIMIT, last_active := now } := by
      rw [lookup_ensure_self, habs]; rfl
    have hrun := run_successes_uses uid now ch n (ensure_user db uid now)
      { uses_left := FREE_USES_LIMIT, last_active := now } hlook hle
    simp [get_uses_left, hrun]

/-- Witness for C1: a successful action takes 3 to 2, a failed inference
leaves the generic failure reply, and 4 successes from fresh leave 6. -/
theorem C1_witness :
    get_uses_left (handle_photo [(7, ⟨3, 0⟩)] 7 1 false fullSuccess).db 7 = 2
    ∧ (handle_photo [(7, ⟨3, 0⟩)] 7 1 false ⟨true, false, true, true⟩).replies
        = [Reply.processing, Reply.analysisError]
    ∧ get_uses_left (run_successes 7 0 false 4 (ensure_user [] 7 0)) 7 = 6 := by
  refine ⟨?_, ?_, ?_⟩
  · have h := ((C1_quota_decrement_only_on_success [(7, ⟨3, 0⟩)] 7 1 false
      fullSuccess 0).1 (by decide)).1 rfl
    rw [h]; decide
  · exact (((C1_quota_decrement_only_on_success [(7, ⟨3, 0⟩)] 7 1 false
      ⟨true, false, true, true⟩ 0).1 (by decide)).2 rfl).2
  · exact (C1_quota_decrement_only_on_success [] 7 0 false fullSuccess 4).2
      rfl (by decide)

/-- Claim C2: the quota gate denies exactly when the stored usesLeft is at
most 0 (a missing row reads as 0), allows at usesLeft = 1, and after that
one consumption the next attempt is denied. -/
theorem C2_denial_boundary (db : DB) (uid : Int) (now n2 : Nat) (ch : Bool)
    (oc : PhotoOutcome) :
    (DB.lookup db uid = none → get_uses_left db uid = 0)
    ∧ ((handle_photo db uid now ch oc).replies = [.limitExhausted]
        ↔ get_uses_left (ensure_user db uid now) uid ≤ 0)
    ∧ (get_uses_left (ensure_user db uid now) uid = 1 →
        (handle_photo db uid now ch fullSuccess).replies
          = [.processing, .analysisResult]
        ∧ (handle_photo (handle_photo db uid now ch fullSuccess).db uid n2 ch oc).replies
          = [.limitExhausted]) := by
  refine ⟨get_uses_left_absent db uid, ?_, ?_⟩
  · constructor
    · intro hrep
      by_contra hpos
      by_cases hx : (oc.acquireOk && oc.inferOk && oc.deliverOk) = true
      · simp only [Bool.and_eq_true] at hx
        obtain ⟨⟨ha, hi⟩, hd⟩ := hx
        obtain ⟨a, i, d, no⟩ := oc
        simp only at ha hi hd
        subst ha; subst hi; subst hd
        rw [handle_photo_allowed_success db uid now ch no hpos] at hrep
        simp at hrep
      · rw [handle_photo_allowed_failure db uid now ch oc hpos
          (by simpa using hx)] at hrep
        simp at hrep
    · intro hden
      rw [handle_photo_denied db uid now ch oc hden]
  · intro hone
    have hrow : ∃ r : UserRow, DB.lookup db uid = some r ∧ r.uses_left = 1 := by
      cases hdb : DB.lookup db uid with
      | none =>
        rw [get_uses_left_ensure_absent db uid now hdb] at hone
        exact absurd hone (by decide)
      | some r =>
        refine ⟨r, rfl, ?_⟩
        have hpres := get_uses_left_ensure_present db uid now r hdb
        rw [hone] at hpres
        simp [get_uses_left, hdb] at hpres
        omega
    obtain ⟨r, hdb, hr1⟩ := hrow
    have hnot : ¬ get_uses_left (ensure_user db uid now) uid ≤ 0 := by
      rw [hone]; decide
    have hstep := handle_photo_success_step db uid now ch r hdb (by omega)
    constructor
    · rw [show (fullSuccess : PhotoOutcome) = ⟨true, true, true, true⟩ from rfl,
        handle_photo_allowed_success db uid now ch true hnot]
    · have hden2 : get_uses_left
          (ensure_user (handle_photo db uid now ch fullSuccess).db uid n2) uid ≤ 0 := by
        rw [get_uses_left_ensure_present _ uid n2 _ hstep.1]
        simp only [get_uses_left, hstep.1]
        omega
      rw [handle_photo_denied _ uid n2 ch oc hden2]

/-- Witness for C2 at usesLeft values 0 and 1. -/
theorem C2_witness :
    get_uses_left ([] : DB) 7 = 0
    ∧ (handle_photo [(7, ⟨0, 0⟩)] 7 1 false fullSuccess).replies = [Reply.limitExhausted]
    ∧ (handle_photo [(7, ⟨1, 0⟩)] 7 1 false fullSuccess).replies
        = [Reply.processing, Reply.analysisResult]
    ∧ (handle_photo (handle_photo [(7, ⟨1, 0⟩)] 7 1 false fullSuccess).db
        7 2 false fullSuccess).replies = [Reply.limitExhausted] := by
  refine ⟨(C2_denial_boundary [] 7 1 2 false fullSuccess).1 rfl,
    (C2_denial_boundary [(7, ⟨0, 0⟩)] 7 1 2 false fullSuccess).2.1.mpr (by decide),
    ((C2_denial_boundary [(7, ⟨1, 0⟩)] 7 1 2 false fullSuccess).2.2 (by decide)).1,
    ((C2_denial_boundary [(7, ⟨1, 0⟩)] 7 1 2 false fullSuccess).2.2 (by decide)).2⟩

/-- Claim C5 counterexample: an account holding the unlimited sentinel 999
is not counted by subscriberCount, because 999 is not strictly below the
free-tier default 10: on a one-row table whose row holds 999 the count is
0, refuting that the count includes every sentinel account. -/
theorem C5_counterexample :
    (get_user_stats [(1, ⟨999, 0⟩)] false).2.2 = 0
    ∧ (DB.lookup [(1, ⟨999, 0⟩)] 1).map UserRow.uses_left = some 999 := by decide

/-- Claim C5 amended: subscriberCount counts exactly the accounts whose
usesLeft is strictly below the free-tier default 10; an account holding the
activation sentinel 999 is never among them, and a freshly activated row is
itself excluded. -/
theorem C5_subscriber_count (db : DB) (kr : Int × UserRow)
    (hmem : kr ∈ db) (hsent : kr.2.uses_left = 999) :
    (get_user_stats db false).2.2
      = (db.filter (fun e => decide (e.2.uses_left < FREE_USES_LIMIT))).length
    ∧ kr ∉ db.filter (fun e => decide (e.2.uses_left < FREE_USES_LIMIT))
    ∧ (∀ uid r, DB.lookup (activate_subscription db uid).1 uid = some r →
        ¬ r.uses_left < FREE_USES_LIMIT) := by
  refine ⟨rfl, ?_, ?_⟩
  · intro hin
    have h2 := (List.mem_filter.mp hin).2
    rw [hsent] at h2
    exact absurd h2 (by decide)
  · intro uid r h
    rw [lookup_activate, if_pos rfl] at h
    cases hdb : DB.lookup db uid with
    | none => rw [hdb] at h; exact absurd h (by simp)
    | some r0 =>
      rw [hdb] at h
      have he : ({ uses_left := 999, last_active := r0.last_active } : UserRow) = r :=
        Option.some.inj h
      rw [← he]
      show ¬ (999 : Int) < FREE_USES_LIMIT
      decide

/-- Witness for C5 on a one-row table holding the sentinel. -/
theorem C5_witness :
    ((1 : Int), (⟨999, 0⟩ : UserRow)) ∈ ([(1, ⟨999, 0⟩)] : DB)
    ∧ (get_user_stats [(1, ⟨999, 0⟩)] false).2.2
        = (([(1, ⟨999, 0⟩)] : DB).filter
            (fun e => decide (e.2.uses_left < FREE_USES_LIMIT))).length
    ∧ ((1 : Int), (⟨999, 0⟩ : UserRow)) ∉ ([(1, ⟨999, 0⟩)] : DB).filter
        (fun e => decide (e.2.uses_left < FREE_USES_LIMIT)) := by
  have h := C5_subscriber_count [(1, ⟨999, 0⟩)] (1, ⟨999, 0⟩) (by decide) rfl
  exact ⟨by decide, h.1, h.2.1⟩

/-- Claim C6 counterexample: on a denied photo event the handler has already
run the ensure_user upsert, so the stored row is updated: lastActive moves
from 0 to 5 even though the user only receives the upgrade message,
refuting that no store row is updated. -/
theorem C6_counterexample :
    (handle_photo [(7, ⟨0, 0⟩)] 7 5 false fullSuccess).replies = [Reply.limitExhausted]
    ∧ (handle_photo [(7, ⟨0, 0⟩)] 7 5 false fullSuccess).db = [(7, ⟨0, 5⟩)]
    ∧ ([(7, (⟨0, 5⟩ : UserRow))] : DB) ≠ [(7, ⟨0, 0⟩)] := by decide

/-- Claim C6 amended: when the gate denies, the user receives the fixed
upgrade message, the state clears, no dispatch occurs, no row is inserted
(the row must already exist and the table length is unchanged), and
usesLeft is unchanged for every user; the one mutation is the lastActive
refresh performed by the ensure_user upsert that precedes the gate. -/
theorem C6_denied_frame (db : DB) (uid : Int) (now : Nat) (ch : Bool)
    (oc : PhotoOutcome)
    (hden : get_uses_left (ensure_user db uid now) uid ≤ 0) :
    (handle_photo db uid now ch oc).replies = [.limitExhausted]
    ∧ (handle_photo db uid now ch oc).state = .idle
    ∧ (handle_photo db uid now ch oc).dispatches = []
    ∧ (handle_photo db uid now ch oc).db = ensure_user db uid now
    ∧ (∀ v, get_uses_left (handle_photo db uid now ch oc).db v = get_uses_left db v)
    ∧ (DB.lookup db uid).isSome
    ∧ (handle_photo db uid now ch oc).db.length = db.length
    ∧ (DB.lookup (handle_photo db uid now ch oc).db uid).map UserRow.last_active
        = some now := by
  have hsome : (DB.lookup db uid).isSome := by
    cases hdb : DB.lookup db uid with
    | some r => rfl
    | none =>
      rw [get_uses_left_ensure_absent db uid now hdb] at hden
      exact absurd hden (by decide)
  obtain ⟨r, hdb⟩ := Option.isSome_iff_exists.mp hsome
  have hph := handle_photo_denied db uid now ch oc hden
  refine ⟨by rw [hph], by rw [hph], by rw [hph], by rw [hph], ?_, hsome, ?_, ?_⟩
  · intro v
    rw [hph]
    by_cases hv : v = uid
    · subst hv
      exact get_uses_left_ensure_present db v now r hdb
    · simp [get_uses_left, lookup_ensure_ne db uid v now hv]
  · rw [hph]
    exact length_ensure_present db uid now hsome
  · rw [hph]
    simp [lookup_ensure_self]

/-- Witness for C6 on a one-row table at the quota boundary. -/
theorem C6_witness :
    get_uses_left (ensure_user [(7, ⟨0, 0⟩)] 7 5) 7 ≤ 0
    ∧ (handle_photo [(7, ⟨0, 0⟩)] 7 5 false fullSuccess).replies = [Reply.limitExhausted]
    ∧ (DB.lookup (handle_photo [(7, ⟨0, 0⟩)] 7 5 false fullSuccess).db 7).map
        UserRow.last_active = some 5 :=
  ⟨by decide, (C6_denied_frame [(7, ⟨0, 0⟩)] 7 5 false fullSuccess (by decide)).1,
   (C6_denied_frame [(7, ⟨0, 0⟩)] 7 5 false fullSuccess (by decide)).2.2.2.2.2.2.2⟩

/-- Claim C7 counterexample: with a storage error, cmd_stats renders the
same normal-looking stats reply an empty error-free table produces, and
cmd_start replies with the plain welcome and no failure message: the errors
in get_user_stats and ensure_user are swallowed, not reported. -/
theorem C7_counterexample :
    (cmd_stats [(5, ⟨3, 0⟩)] ADMIN_ID .idle true).replies
      = (cmd_stats [] ADMIN_ID .idle false).replies
    ∧ (cmd_start [] 1 0 true).replies = [Reply.welcome] := by decide

/-- Claim C7 amended: storage errors in ensure_user and get_user_stats are
swallowed — the caller observes a normal-looking result (welcome reply,
zero stats panel) — while the user-listing, find, activate and broadcast
paths do surface a generic failure reply to the end user. -/
theorem C7_storage_errors (db : DB) (uid target : Int) (now : Nat)
    (st : DialogState) (text : Option String) (sendFail : Int → Bool) (cn : Bool)
    (hne : text_empty text = false) :
    (cmd_start db uid now true).replies = [.welcome]
    ∧ (cmd_start db uid now true).db = db
    ∧ (cmd_stats db ADMIN_ID st true).replies = [.statsMsg 0 0 0]
    ∧ (cmd_admin db ADMIN_ID st true).replies = [.adminPanel 0 0 0]
    ∧ (cmd_list_users db ADMIN_ID st true).replies = [.usersDbError]
    ∧ (cmd_find_user db ADMIN_ID st (some (some target)) true).replies = [.findDbError]
    ∧ (cmd_activate_user db ADMIN_ID st (some (some target)) true).replies
        = [.activateDbError]
    ∧ (process_broadcast db text false sendFail cn).replies = [.broadcastDbError] := by
  refine ⟨rfl, rfl, ?_, ?_, ?_, ?_, ?_, ?_⟩
  · simp [cmd_stats, get_user_stats, get_generation_count]
  · simp [cmd_admin, get_user_stats]
  · simp [cmd_list_users]
  · simp [cmd_find_user]
  · simp [cmd_activate_user]
  · simp [process_broadcast, hne]

/-- Witness for C7 with a nonempty broadcast text. -/
theorem C7_witness :
    text_empty (some "hi") = false
    ∧ (cmd_stats [] ADMIN_ID .idle true).replies = [Reply.statsMsg 0 0 0]
    ∧ (process_broadcast [] (some "hi") false (fun _ => false) true).replies
        = [Reply.broadcastDbError] := by
  have h := C7_storage_errors [] 1 2 0 .idle (some "hi") (fun _ => false) true
    (by decide)
  exact ⟨by decide, h.2.2.1, h.2.2.2.2.2.2.2⟩

/-- Reading the counter through a known lookup result. -/
theorem get_uses_left_of_lookup (db : DB) (uid : Int) (r : UserRow)
    (h : DB.lookup db uid = some r) : get_uses_left db uid = r.uses_left := by
  simp [get_uses_left, h]

/-- Claim C10: the sentinel 999 set by activation is an ordinary finite
counter: the gate and the decrement treat it like any value, one successful
analysis takes it to 998, and after 999 further successful analyses the
account reads 0 and the next attempt is denied. -/
theorem C10_sentinel_ordinary (db : DB) (uid : Int) (now n2 : Nat) (ch : Bool)
    (oc : PhotoOutcome) (r : UserRow) (hrow : DB.lookup db uid = some r) :
    (activate_subscription db uid).2 = true
    ∧ get_uses_left (activate_subscription db uid).1 uid = 999
    ∧ get_uses_left
        (handle_photo (activate_subscription db uid).1 uid now ch fullSuccess).db uid = 998
    ∧ get_uses_left (run_successes uid now ch 999 (activate_subscription db uid).1) uid = 0
    ∧ (handle_photo (run_successes uid now ch 999 (activate_subscription db uid).1)
        uid n2 ch oc).replies = [.limitExhausted] := by
  have hsome : (DB.lookup db uid).isSome := by rw [hrow]; rfl
  have hlook : DB.lookup (activate_subscription db uid).1 uid
      = some { uses_left := 999, last_active := r.last_active } := by
    rw [lookup_activate, if_pos rfl, hrow]; rfl
  have hget : get_uses_left (activate_subscription db uid).1 uid = 999 := by
    simp [get_uses_left, hlook]
  have hstep := handle_photo_success_step (activate_subscription db uid).1 uid now ch
    { uses_left := 999, last_active := r.last_active } hlook
    (by show (0 : Int) < 999; norm_num)
  have hrun := run_successes_uses uid now ch 999 (activate_subscription db uid).1
    { uses_left := 999, last_active := r.last_active } hlook
    (by show ((999 : Nat) : Int) ≤ 999; norm_num)
  have hrun0 : DB.lookup (run_successes uid now ch 999 (activate_subscription db uid).1) uid
      = some { uses_left := 0, last_active := now } := by
    rw [hrun]
    simp only [Option.some.injEq, UserRow.mk.injEq]
    push_cast
    refine ⟨?_, ?_⟩ <;> first | rfl | trivial
  refine ⟨(activate_affected db uid).mpr hsome, hget, ?_, ?_, ?_⟩
  · rw [hstep.2, hget]; decide
  · rw [get_uses_left_of_lookup _ uid _ hrun0]
  · have hden : get_uses_left
        (ensure_user (run_successes uid now ch 999 (activate_subscription db uid).1) uid n2)
        uid ≤ 0 := by
      rw [get_uses_left_ensure_present _ uid n2 _ hrun0,
        get_uses_left_of_lookup _ uid _ hrun0]
    rw [handle_photo_denied _ uid n2 ch oc hden]

/-- Witness for C10 on a one-row table. -/
theorem C10_witness :
    DB.lookup [(7, (⟨1, 0⟩ : UserRow))] 7 = some ⟨1, 0⟩
    ∧ (activate_subscription [(7, ⟨1, 0⟩)] 7).2 = true
    ∧ get_uses_left (activate_subscription [(7, ⟨1, 0⟩)] 7).1 7 = 999
    ∧ get_uses_left
        (handle_photo (activate_subscription [(7, ⟨1, 0⟩)] 7).1 7 1 false fullSuccess).db 7
        = 998 := by
  have h := C10_sentinel_ordinary [(7, ⟨1, 0⟩)] 7 1 2 false fullSuccess ⟨1, 0⟩ rfl
  exact ⟨rfl, h.1, h.2.1, h.2.2.1⟩
